import Mathlib

/-!
Verification of the configuration repository `build-react-app-structure-`.

The repository consists of three files: `vite.config.ts` (bundler
configuration), `.eslintrc.json` (linter configuration) and `README.md`
(documentation reproducing the type-checker configurations, the bundler
configuration, the linter configuration and the npm script table).

All content is static declarative data, so the shallow embedding is a
direct transcription of each file into Lean data: JSON documents become
values of a small JSON type `J`, the TypeScript module becomes a list of
declarations whose default export is a `ViteConfig` record.
-/

/-- A JSON value, as needed for the configuration files of this repository. -/
inductive J where
  | str : String → J
  | bool : Bool → J
  | num : Int → J
  | arr : List J → J
  | obj : List (String × J) → J

/-- Look up a key in a JSON object (represented as an association list). -/
def jLookup (o : List (String × J)) (k : String) : Option J :=
  (o.find? (fun p => p.fst == k)).map (fun p => p.snd)

/-- Whether a JSON object has a given top-level key. -/
def hasKey (o : List (String × J)) (k : String) : Bool :=
  o.any (fun p => p.fst == k)

/-- The strings of a JSON array of strings (non-strings are dropped). -/
def jStrings : J → List String
  | .arr xs => xs.filterMap (fun v => match v with | .str s => some s | _ => none)
  | _ => []

/-- The plugin names declared in the `plugins` array of `.eslintrc.json`,
in file order. -/
def eslintPluginsList : List String :=
  ["react", "react-refresh", "react-hooks", "import", "@typescript-eslint", "prettier"]

/-- The entries of the `extends` array of `.eslintrc.json`, in file order. -/
def eslintExtendsList : List String :=
  ["eslint:recommended", "plugin:react/recommended", "plugin:react-hooks/recommended",
   "plugin:@typescript-eslint/eslint-recommended", "plugin:@typescript-eslint/recommended",
   "plugin:import/warnings", "plugin:import/typescript", "prettier"]

/-- The `rules` map of `.eslintrc.json`, in file order: each entry is a rule
name paired with its configured value (a severity string, or a
`[severity, options]` array). -/
def eslintRules : List (String × J) :=
  [("react/jsx-key", J.str "warn"),
   ("react/prop-types", J.str "off"),
   ("react/display-name", J.str "warn"),
   ("react/no-children-prop", J.str "warn"),
   ("react/react-in-jsx-scope", J.str "off"),
   ("react/button-has-type", J.str "warn"),
   ("react-hooks/exhaustive-deps", J.str "off"),
   ("react-hooks/rules-of-hooks", J.str "error"),
   ("@typescript-eslint/no-unused-vars", J.str "warn"),
   ("no-case-declarations", J.str "warn"),
   ("no-console", J.str "warn"),
   ("react-refresh/only-export-components", J.str "warn"),
   ("@typescript-eslint/explicit-function-return-type", J.str "off"),
   ("@typescript-eslint/no-explicit-any", J.str "warn"),
   ("no-unsafe-optional-chaining", J.str "warn"),
   ("import/order",
     J.arr [J.str "error",
            J.obj [("groups",
                    J.arr [J.str "builtin", J.str "external", J.str "internal",
                           J.str "parent", J.str "sibling"])]]),
   ("prettier/prettier",
     J.arr [J.str "warn", J.obj [("endOfLine", J.str "auto")]])]

/-- The whole of `.eslintrc.json` as a JSON object (top-level association
list), transcribed key by key in file order. -/
def eslintrc : List (String × J) :=
  [("env", J.obj [("browser", J.bool true), ("es6", J.bool true), ("node", J.bool true)]),
   ("extends", J.arr (eslintExtendsList.map J.str)),
   ("parser", J.str "@typescript-eslint/parser"),
   ("parserOptions",
     J.obj [("ecmaVersion", J.str "latest"),
            ("sourceType", J.str "module"),
            ("ecmaFeatures", J.obj [("jsx", J.bool true)])]),
   ("plugins", J.arr (eslintPluginsList.map J.str)),
   ("rules", J.obj eslintRules),
   ("settings",
     J.obj [("react", J.obj [("version", J.str "detect")]),
            ("import/resolver",
              J.obj [("node",
                      J.obj [("extensions",
                              J.arr [J.str ".js", J.str ".jsx", J.str ".ts", J.str ".tsx"])])])])]

/-- The characters of a rule name up to (excluding) the first slash. -/
def takeUntilSlash : List Char → List Char
  | [] => []
  | c :: cs => if c = '/' then [] else c :: takeUntilSlash cs

/-- The plugin scope of an ESLint rule name: the part before the first
slash (for a core rule, the whole name). -/
def ruleScope (r : String) : String :=
  String.mk (takeUntilSlash r.toList)

/-- An ESLint core rule has no slash in its name. -/
def isCoreRule (r : String) : Bool :=
  !(r.toList.contains '/')

/-- The three severity strings ESLint accepts in this configuration. -/
def severityStrings : List String := ["off", "warn", "error"]

def isSeverityStr (s : String) : Bool := severityStrings.contains s

/-- A well-formed rule entry value: a severity string, or a two-element
array of a severity string followed by an options object. -/
def isRuleEntry : J → Bool
  | .str s => isSeverityStr s
  | .arr [J.str s, _] => isSeverityStr s
  | _ => false

/-- The configured severity of a rule value: the value itself when it is
a string, the first element when it is an array. -/
def severityOf : J → Option String
  | .str s => some s
  | .arr (J.str s :: _) => some s
  | _ => none

/-- The `resolve` record of the bundler configuration. Each alias value in
the source is `path.resolve(__dirname, p)`; the embedding stores the
relative path literal `p` (see `pathResolve` for the resolution). The
source field is named `alias`; that word is reserved in Lean, so the
field is `aliasMap` here. -/
structure ViteResolve where
  aliasMap : List (String × String)
deriving DecidableEq

/-- The configuration object built by `defineConfig` in `vite.config.ts`:
a `resolve` field holding the alias record and a `plugins` list. The sole
plugin is the call `react()`, recorded by the plugin's name. -/
structure ViteConfig where
  resolve : ViteResolve
  plugins : List String
deriving DecidableEq

/-- Node's `path.resolve(dir, p)` for the inputs occurring in
`vite.config.ts`, where every `p` is `"./..."`: it joins `p` (without the
leading dot) onto `dir`. -/
def pathResolve (dir rel : String) : String :=
  dir ++ rel.drop 1

/-- The `resolve.alias` map of `vite.config.ts`, in file order. Each value
is the relative path passed to `path.resolve(__dirname, ...)`. -/
def viteAlias : List (String × String) :=
  [("@UI", "./src/shared/UI"),
   ("@services", "./src/app/api/services"),
   ("@servicesTypes", "./src/app/api/types"),
   ("@constants", "./src/app/constants"),
   ("@app", "./src/app"),
   ("@assets", "./src/assets"),
   ("@components", "./src/components"),
   ("@shadecn", "./src/shadecn"),
   ("@hooks", "./src/hooks"),
   ("@store", "./src/store"),
   ("@", "./src")]

/-- The configuration object that `vite.config.ts` passes to
`defineConfig` and default-exports. -/
def viteConfig : ViteConfig :=
  { resolve := { aliasMap := viteAlias }, plugins := ["react"] }

/-- A top-level declaration of the TypeScript module `vite.config.ts`:
an import binding, a default export, a named export, or a function
definition. -/
inductive TsDecl where
  | importFrom (binding source : String) : TsDecl
  | exportDefault (c : ViteConfig) : TsDecl
  | exportNamed (n : String) : TsDecl
  | funcDef (n : String) : TsDecl
deriving DecidableEq

/-- The declarations of `vite.config.ts`, in file order: three imports and
the default export of the configuration object. -/
def viteModule : List TsDecl :=
  [TsDecl.importFrom "path" "path",
   TsDecl.importFrom "defineConfig" "vite",
   TsDecl.importFrom "react" "@vitejs/plugin-react",
   TsDecl.exportDefault viteConfig]

def isExport : TsDecl → Bool
  | .exportDefault _ => true
  | .exportNamed _ => true
  | _ => false

def isFuncDef : TsDecl → Bool
  | .funcDef _ => true
  | _ => false

def isImport : TsDecl → Bool
  | .importFrom _ _ => true
  | _ => false

/-- The `resolve.alias` map of the Vite configuration code block reproduced
in the README ("Vite Configuration" section), in block order. -/
def readmeViteAlias : List (String × String) :=
  [("@UI", "./src/shared/UI"),
   ("@services", "./src/app/api/services"),
   ("@servicesTypes", "./src/app/api/types"),
   ("@constants", "./src/app/constants"),
   ("@app", "./src/app"),
   ("@assets", "./src/assets"),
   ("@components", "./src/components"),
   ("@shadecn", "./src/shadecn"),
   ("@hooks", "./src/hooks"),
   ("@store", "./src/store"),
   ("@", "./src")]

/-- The plugins list of the README's Vite configuration code block: the
single call `react()`. -/
def readmeVitePlugins : List String := ["react"]

/-- The `paths` map of the README's `tsconfig.json` code block, in block
order; each value is the array of target patterns. -/
def tsconfigPaths : List (String × List String) :=
  [("@UI/*", ["src/shared/UI/*"]),
   ("@services/*", ["src/app/api/services/*"]),
   ("@servicesTypes/*", ["src/app/api/types/*"]),
   ("@constants/*", ["src/app/constants/*"]),
   ("@app/*", ["src/app/*"]),
   ("@store/*", ["src/store/*"]),
   ("@shadecn/*", ["src/shadecn/*"]),
   ("@components/*", ["src/components/*"]),
   ("@assets/*", ["src/assets/*"]),
   ("@hooks", ["src/hooks"]),
   ("@/*", ["src/*"])]

/-- The README's `tsconfig.json` code block as a JSON object. -/
def tsconfigJson : List (String × J) :=
  [("compilerOptions",
     J.obj [("target", J.str "ESNext"),
            ("useDefineForClassFields", J.bool true),
            ("lib", J.arr [J.str "DOM", J.str "DOM.Iterable", J.str "ESNext"]),
            ("allowJs", J.bool false),
            ("skipLibCheck", J.bool true),
            ("esModuleInterop", J.bool false),
            ("allowSyntheticDefaultImports", J.bool true),
            ("strict", J.bool false),
            ("forceConsistentCasingInFileNames", J.bool true),
            ("module", J.str "ESNext"),
            ("moduleResolution", J.str "Node"),
            ("resolveJsonModule", J.bool true),
            ("isolatedModules", J.bool true),
            ("noEmit", J.bool true),
            ("jsx", J.str "react-jsx"),
            ("baseUrl", J.str "./"),
            ("paths",
              J.obj (tsconfigPaths.map
                (fun kv => (kv.fst, J.arr (kv.snd.map J.str)))))]),
   ("include", J.arr [J.str "src"]),
   ("references", J.arr [J.obj [("path", J.str "./tsconfig.node.json")]])]

/-- The README's `tsconfig.node.json` code block as a JSON object. -/
def tsconfigNodeJson : List (String × J) :=
  [("compilerOptions",
     J.obj [("target", J.str "ES2022"),
            ("lib", J.arr [J.str "ES2023"]),
            ("module", J.str "ESNext"),
            ("skipLibCheck", J.bool true),
            ("composite", J.bool true),
            ("moduleResolution", J.str "bundler"),
            ("allowImportingTsExtensions", J.bool false),
            ("isolatedModules", J.bool true),
            ("moduleDetection", J.str "force"),
            ("noEmit", J.bool false),
            ("strict", J.bool true),
            ("noUnusedLocals", J.bool true),
            ("noUnusedParameters", J.bool true),
            ("noFallthroughCasesInSwitch", J.bool true)]),
   ("include", J.arr [J.str "vite.config.ts"])]

/-- The README's `tsconfig.app.json` code block as a JSON object. -/
def tsconfigAppJson : List (String × J) :=
  [("compilerOptions",
     J.obj [("target", J.str "ES2020"),
            ("useDefineForClassFields", J.bool true),
            ("lib", J.arr [J.str "ES2020", J.str "DOM", J.str "DOM.Iterable"]),
            ("module", J.str "ESNext"),
            ("skipLibCheck", J.bool true),
            ("moduleResolution", J.str "bundler"),
            ("allowImportingTsExtensions", J.bool true),
            ("isolatedModules", J.bool true),
            ("moduleDetection", J.str "force"),
            ("noEmit", J.bool true),
            ("jsx", J.str "react-jsx"),
            ("strict", J.bool true),
            ("noUnusedLocals", J.bool true),
            ("noUnusedParameters", J.bool true),
            ("noFallthroughCasesInSwitch", J.bool true)]),
   ("include", J.arr [J.str "src"])]

/-- The npm `scripts` map documented in the README, in block order. -/
def npmScripts : List (String × String) :=
  [("dev", "vite --port=4000 --host"),
   ("build", "tsc -b && vite build"),
   ("lint", "eslint . --ext .js,.js,.jsx,.ts,.tsx"),
   ("format", "prettier-eslint --write \"src/**/*.\x7bjs,jsx,ts,tsx\x7d\""),
   ("preview", "vite preview")]

/-- Whether the first character list is an initial segment of the second. -/
def listIsInit : List Char → List Char → Bool
  | [], _ => true
  | _ :: _, [] => false
  | a :: as, b :: bs => a == b && listIsInit as bs

/-- Whether string `p` is an initial segment of string `s`. -/
def strStarts (p s : String) : Bool :=
  listIsInit p.toList s.toList

/-- Strip a trailing glob `/*` from a path pattern, if present. -/
def stripGlob (s : String) : String :=
  match s.toList.reverse with
  | '*' :: '/' :: rest => String.mk rest.reverse
  | _ => s

/-- The `paths` map of the README's `tsconfig.json` normalised to the
bundler's alias form: the `/*` glob is removed from keys and targets, and
targets (relative to `baseUrl "./"`) are written with the explicit `./`
used by `vite.config.ts`. Each `paths` value is its (single) target. -/
def normalizedTsPaths : List (String × String) :=
  tsconfigPaths.map (fun kv =>
    (stripGlob kv.fst, "./" ++ stripGlob (kv.snd.headD "")))

/-- The words of a shell command string (split on spaces). -/
def wordsAux (acc : List Char) : List Char → List String
  | [] => if acc.isEmpty then [] else [String.mk acc.reverse]
  | c :: cs =>
      if c = ' ' then
        if acc.isEmpty then wordsAux [] cs
        else String.mk acc.reverse :: wordsAux [] cs
      else wordsAux (c :: acc) cs

def wordsOf (s : String) : List String :=
  wordsAux [] s.toList

/-- After the leading tool of a command, collect the tool following each
`&&` connective. -/
def toolsAux : List String → List String
  | [] => []
  | "&&" :: [] => []
  | "&&" :: t :: ts => t :: toolsAux ts
  | _ :: ws => toolsAux ws

/-- The external tools invoked by a script command: the first word, plus
the word after each `&&`. -/
def toolsOf (cmd : String) : List String :=
  match wordsOf cmd with
  | [] => []
  | w :: ws => w :: toolsAux ws

/-- A command is a plain tool invocation chain: no pipes, no `;`
sequencing, no shell conditionals beyond the `&&` connective. -/
def plainInvocation (cmd : String) : Bool :=
  !(cmd.toList.contains '|') && !(cmd.toList.contains ';') &&
    !((wordsOf cmd).contains "if")

/-- The command string of a documented npm script. -/
def scriptCmd (name : String) : String :=
  ((npmScripts.find? (fun p => p.fst == name)).map (fun p => p.snd)).getD ""

/-- The content of a file of this repository: markdown documentation, a
JSON data file, or a TypeScript module given by its declarations. -/
inductive FileContent where
  | markdownDoc : FileContent
  | jsonData : List (String × J) → FileContent
  | tsModule : List TsDecl → FileContent

/-- The files supplied with the repository, with their embedded contents. -/
def repoFiles : List (String × FileContent) :=
  [("README.md", FileContent.markdownDoc),
   (".eslintrc.json", FileContent.jsonData eslintrc),
   ("vite.config.ts", FileContent.tsModule viteModule)]

/-- Whether a file contains any function definition: markdown and JSON
data cannot, a TypeScript module does iff one of its declarations is a
function definition. -/
def fileHasFunc : FileContent → Bool
  | .markdownDoc => false
  | .jsonData _ => false
  | .tsModule ds => ds.any isFuncDef

/-- The non-import declarations of a TypeScript module: everything the
module computes or exports beyond bringing names into scope. -/
def moduleBody : List TsDecl → List TsDecl :=
  List.filter (fun d => !(isImport d))

/-- The `rules` map extracted from the `.eslintrc.json` object. -/
def eslintRulesObj : List (String × J) :=
  match jLookup eslintrc "rules" with
  | some (J.obj o) => o
  | _ => []

/-- The `plugins` array extracted from the `.eslintrc.json` object. -/
def eslintPluginsDeclared : List String :=
  jStrings ((jLookup eslintrc "plugins").getD (J.obj []))

/-- The `compilerOptions` record of a type-checker configuration. -/
def compilerOptionsOf (cfg : List (String × J)) : List (String × J) :=
  match jLookup cfg "compilerOptions" with
  | some (J.obj o) => o
  | _ => []

/-- A JSON array whose elements are all strings. -/
def isStrArr : J → Bool
  | .arr xs => xs.all (fun v => match v with | .str _ => true | _ => false)
  | _ => false

/-- The `compilerOptions` record declares a target, a module system, a
library set and a strictness flag. -/
def hasCoreCompilerOptions (cfg : List (String × J)) : Bool :=
  hasKey (compilerOptionsOf cfg) "target" &&
  hasKey (compilerOptionsOf cfg) "module" &&
  hasKey (compilerOptionsOf cfg) "lib" &&
  hasKey (compilerOptionsOf cfg) "strict"

/-- The configuration has an `include` key holding an array of strings. -/
def hasIncludeArr (cfg : List (String × J)) : Bool :=
  match jLookup cfg "include" with
  | some v => isStrArr v
  | none => false

/-- C1: The alias maps of the bundler configuration (`resolve.alias` in
`vite.config.ts`) and of the type-checker configuration (`paths` in the
README's `tsconfig.json`) declare exactly the same alias keys with
equivalent targets: after removing the `/*` glob and normalising the
`baseUrl`-relative targets to `./`-relative form, every bundler alias
entry occurs among the type-checker path entries and conversely. -/
theorem vite_tsconfig_aliases_agree :
    viteAlias.all (fun kv => normalizedTsPaths.contains kv) = true ∧
    normalizedTsPaths.all (fun kv => viteAlias.contains kv) = true := by
  decide

/-- C2: Every rule named in the `rules` map of `.eslintrc.json` is either
an ESLint core rule (its name has no plugin scope, i.e. no slash) or its
plugin scope (the part before the first slash) is one of the plugins
declared in the same file's `plugins` array. -/
theorem eslint_rules_have_declared_scope :
    eslintRulesObj.all (fun kv =>
      isCoreRule kv.fst || eslintPluginsDeclared.contains (ruleScope kv.fst)) = true := by
  decide

/-- C3: The module `vite.config.ts` has exactly one export, the default
export of the configuration object, whose `resolve` field carries the
eleven-entry alias record and whose `plugins` field is a one-element
list; nothing else is exported. -/
theorem vite_config_single_default_export :
    viteModule.filter isExport = [TsDecl.exportDefault viteConfig] ∧
    viteConfig.resolve.aliasMap.length = 11 ∧
    viteConfig.plugins.length = 1 := by
  decide

/-- C4: The top-level keys of `.eslintrc.json` are exactly `env`,
`extends`, `parser`, `parserOptions`, `plugins`, `rules` and `settings`,
and every value in the `rules` map is a severity string or a
`[severity, options]` pair. -/
theorem eslintrc_shape :
    eslintrc.map Prod.fst =
      ["env", "extends", "parser", "parserOptions", "plugins", "rules", "settings"] ∧
    eslintRulesObj.all (fun kv => isRuleEntry kv.snd) = true := by
  decide

/-- C5 counterexample: the README's `tsconfig.node.json` has top-level
keys `compilerOptions` and `include` only — it has no `references` array,
contradicting the claim that each of the three documented type-checker
configurations has both `include` and `references` arrays. -/
theorem tsconfig_node_lacks_references :
    tsconfigNodeJson.map Prod.fst = ["compilerOptions", "include"] ∧
    hasKey tsconfigNodeJson "references" = false := by
  decide

/-- C5 (amended): each of the three documented type-checker
configurations is a JSON object with a `compilerOptions` record declaring
a target, module system, library set and strictness flag, together with
an `include` array of strings; the path-alias map and the `references`
array appear in `tsconfig.json` only. -/
theorem tsconfigs_shape_amended :
    (hasCoreCompilerOptions tsconfigJson && hasCoreCompilerOptions tsconfigNodeJson &&
      hasCoreCompilerOptions tsconfigAppJson) = true ∧
    (hasIncludeArr tsconfigJson && hasIncludeArr tsconfigNodeJson &&
      hasIncludeArr tsconfigAppJson) = true ∧
    hasKey (compilerOptionsOf tsconfigJson) "paths" = true ∧
    hasKey tsconfigJson "references" = true ∧
    hasKey tsconfigNodeJson "references" = false ∧
    hasKey tsconfigAppJson "references" = false ∧
    hasKey (compilerOptionsOf tsconfigNodeJson) "paths" = false ∧
    hasKey (compilerOptionsOf tsconfigAppJson) "paths" = false := by
  decide

/-- C6: The documented npm scripts are exactly `dev`, `build`, `lint`,
`format` and `preview`; the tools each command invokes are respectively
`vite`, `tsc` then `vite`, `eslint`, `prettier-eslint` and `vite`, with
fixed arguments and no shell logic beyond the `&&` chain in `build`. -/
theorem npm_scripts_surface :
    npmScripts.map Prod.fst = ["dev", "build", "lint", "format", "preview"] ∧
    toolsOf (scriptCmd "dev") = ["vite"] ∧
    toolsOf (scriptCmd "build") = ["tsc", "vite"] ∧
    toolsOf (scriptCmd "lint") = ["eslint"] ∧
    toolsOf (scriptCmd "format") = ["prettier-eslint"] ∧
    toolsOf (scriptCmd "preview") = ["vite"] ∧
    npmScripts.all (fun kv => plainInvocation kv.snd) = true := by
  decide

/-- C7: The supplied repository material is documentation, JSON
configuration data and one TypeScript module; no file defines a function,
and the only computation in the TypeScript module is the construction and
default export of the static configuration object. -/
theorem no_executable_logic :
    repoFiles.map Prod.fst = ["README.md", ".eslintrc.json", "vite.config.ts"] ∧
    repoFiles.all (fun f => !(fileHasFunc f.snd)) = true ∧
    moduleBody viteModule = [TsDecl.exportDefault viteConfig] := by
  decide

/-- C8: The Vite configuration code block reproduced in the README agrees
exactly with `vite.config.ts`: the same eleven alias keys mapped to the
same targets in the same order, and the same single-element plugins
list. -/
theorem readme_vite_block_matches_source :
    readmeViteAlias = viteConfig.resolve.aliasMap ∧
    readmeVitePlugins = viteConfig.plugins ∧
    viteConfig.resolve.aliasMap.length = 11 := by
  decide

/-- C9: Every alias target in `resolve.alias` of `vite.config.ts` is
`./src` itself or a path inside `./src/`, the catch-all alias `@`
(target `./src`) is the last of the eleven entries, and the ten entries
before it are strictly longer `@`-prefixed aliases. -/
theorem vite_alias_targets_inside_src :
    viteAlias.all (fun kv => kv.snd == "./src" || strStarts "./src/" kv.snd) = true ∧
    viteAlias.getLast? = some ("@", "./src") ∧
    (viteAlias.take 10).all
      (fun kv => strStarts "@" kv.fst && decide (1 < kv.fst.length)) = true ∧
    (viteAlias.map Prod.fst).count "@" = 1 := by
  decide

/-- C10: Every configured severity in the `rules` map of `.eslintrc.json`
(the rule's value, or the head of its array value) is `off`, `warn` or
`error`; exactly the rules `react-hooks/rules-of-hooks` and `import/order`
are at severity `error`; every other enabled rule is at `warn`. -/
theorem eslint_severities :
    eslintRulesObj.all (fun kv =>
      match severityOf kv.snd with
      | some s => isSeverityStr s
      | none => false) = true ∧
    (eslintRulesObj.filter (fun kv => severityOf kv.snd == some "error")).map Prod.fst =
      ["react-hooks/rules-of-hooks", "import/order"] ∧
    (eslintRulesObj.filter (fun kv =>
        severityOf kv.snd != some "off" && severityOf kv.snd != some "error")).all
      (fun kv => severityOf kv.snd == some "warn") = true := by
  decide
